import Mathlib

/-!
Verification of the voice-activity segmentation and multilingual fan-out
pipeline of the MURF multilingual voice chat room backend.

The definitions below are a shallow embedding of `backend/bot_worker.py`,
`backend/murf_api.py` and the playback queue of the room page in
`backend/main.py`.  Machine floats are idealised as `ℝ` (for the RMS energy
estimate) and `ℚ` (for wall-clock times); byte strings are `List Nat`
(each entry one byte).  External collaborator calls (recognition,
translation, synthesis) are modelled as explicit inputs.
-/

namespace BotWorker

/-- `SILENCE_THRESHOLD = 100` from `bot_worker.py` (RMS threshold for
silence detection). -/
def SILENCE_THRESHOLD : ℝ := 100

/-- `SILENCE_SECONDS_TO_END = 0.5` from `bot_worker.py` (seconds of silence
treated as end of turn). -/
def SILENCE_SECONDS_TO_END : ℚ := 1 / 2

/-- `MIN_SPEECH_BYTES = 16000 * 2 // 5` from `bot_worker.py` (~0.2 s of
16 kHz 16-bit mono audio). -/
def MIN_SPEECH_BYTES : Nat := 16000 * 2 / 5

/-- `MAX_CONCURRENT_TTS = 3` from `bot_worker.py` (semaphore bound on
concurrent TTS tasks). -/
def MAX_CONCURRENT_TTS : Nat := 3

/-- The local `min_speech_bytes = int(sample_rate * 2 * 0.5)` computed in
`RoomBotHandle._read_track_loop` with the hard-coded local
`sample_rate = 48000`: the size-based flush threshold, in bytes. -/
def READ_LOOP_FLUSH_BYTES : Nat := 48000 * 2 / 2

/-- Sign interpretation of a little-endian int16: low byte `b0`, high byte
`b1` (as in `struct.unpack("<{n}h", ...)`). -/
def int16OfBytes (b0 b1 : Nat) : Int :=
  let v := b0 % 256 + 256 * (b1 % 256)
  if v < 32768 then (v : Int) else (v : Int) - 65536

/-- The int16 samples of a PCM16LE byte string, consuming bytes two at a
time; a trailing odd byte is discarded (as `pcm_bytes[: count * 2]` does in
`_rms_of_pcm16`). -/
def pcmSamples : List Nat → List Int
  | b0 :: b1 :: rest => int16OfBytes b0 b1 :: pcmSamples rest
  | _ => []

/-- Sum of squared samples, the accumulator `sm` of `_rms_of_pcm16`. -/
def sumSq (l : List Int) : Int := (l.map fun s => s * s).sum

/-- `_rms_of_pcm16` from `bot_worker.py`: `0.0` when there is no complete
int16 sample, else `sqrt(sum of squares / count)` where
`count = len(pcm_bytes) // 2`.  (The Python float is idealised as a real
number; the comparison against the silence threshold is made computable by
the decidability instance below.) -/
noncomputable def rmsOfPcm16 (pcm : List Nat) : ℝ :=
  if pcm.length / 2 = 0 then 0
  else Real.sqrt ((sumSq (pcmSamples pcm) : ℝ) / ((pcm.length / 2 : Nat) : ℝ))

theorem pcmSamples_nil_of_short (pcm : List Nat) (h : pcm.length < 2) :
    pcmSamples pcm = [] := by
  match pcm with
  | [] => rfl
  | [b] => rfl
  | b0 :: b1 :: rest => simp at h; omega

theorem sumSq_nonneg (l : List Int) : 0 ≤ sumSq l := by
  induction l with
  | nil => simp [sumSq]
  | cons a l ih =>
    simp only [sumSq, List.map_cons, List.sum_cons]
    have := mul_self_nonneg a
    simp only [sumSq] at ih
    omega

theorem pcmSamples_length (pcm : List Nat) :
    (pcmSamples pcm).length = pcm.length / 2 := by
  match pcm with
  | [] => rfl
  | [b] => simp [pcmSamples]
  | b0 :: b1 :: rest =>
    simp only [pcmSamples, List.length_cons, pcmSamples_length rest]
    omega

theorem sqrt_mean_gt_100_iff (n : Nat) (S : Int) (hn : 0 < n) :
    100 < Real.sqrt ((S : ℝ) / (n : ℝ)) ↔ 10000 * (n : Int) < S := by
  have hc : (0 : ℝ) < (n : ℝ) := by exact_mod_cast hn
  rw [Real.lt_sqrt (by norm_num : (0:ℝ) ≤ 100), lt_div_iff₀ hc]
  norm_num
  constructor <;> intro h <;> exact_mod_cast h

/-- The energy test `rms > SILENCE_THRESHOLD` of the reader loop is
decidable: it is equivalent to an integer inequality on the sum of squared
samples. -/
instance rmsGtThresholdDec (pcm : List Nat) :
    Decidable (rmsOfPcm16 pcm > SILENCE_THRESHOLD) :=
  decidable_of_iff (10000 * ((pcm.length / 2 : Nat) : Int) < sumSq (pcmSamples pcm)) (by
    unfold rmsOfPcm16 SILENCE_THRESHOLD
    rcases Nat.eq_zero_or_pos (pcm.length / 2) with h0 | hpos
    · rw [h0]
      simp only [if_pos rfl]
      rw [pcmSamples_nil_of_short pcm (by omega)]
      constructor
      · intro h; simp [sumSq] at h
      · intro h; exact absurd h (by norm_num)
    · rw [if_neg (by omega), gt_iff_lt]
      exact (sqrt_mean_gt_100_iff _ _ hpos).symm)

/-- The slice `buffer[-(int(0.2 * sr) * 2):]` of `_read_track_loop`: the
most recent `int(0.2 * sr) * 2` bytes of the buffer.  Note the Python
quirk: when `int(0.2 * sr) * 2 == 0` the slice `[-0:]` is the *whole*
buffer, not the empty suffix. -/
def pyWindow (buffer : List Nat) (sr : Nat) : List Nat :=
  let k := 2 * (sr / 5)
  if k = 0 then buffer else buffer.drop (buffer.length - k)

/-- The mutable per-speaker reader state of `_read_track_loop`: the
accumulated byte buffer and `last_voice_time` (seconds). -/
structure ReaderState where
  buffer : List Nat
  lastVoiceTime : ℚ
deriving DecidableEq, Repr

/-- What a single reader-loop iteration did with the buffer. -/
inductive FlushOutcome
  /-- no end-of-turn: samples stay in the buffer -/
  | none
  /-- buffer was snapshotted and cleared, but the snapshot was smaller
      than `MIN_SPEECH_BYTES` and was ignored (dropped) -/
  | ignored (snapshot : List Nat)
  /-- buffer was snapshotted, cleared and handed to
      `_process_speech_chunk` -/
  | dispatched (snapshot : List Nat)
deriving DecidableEq, Repr

/-- One iteration of the `async for frame_event in stream` body of
`RoomBotHandle._read_track_loop`, for a frame carrying bytes `data`,
frame sample rate `frameSr` (`0` models a falsy `sample_rate`, replaced by
the local default `48000` via `or`), at wall-clock time `now`. -/
def readStep (st : ReaderState) (data : List Nat) (frameSr : Nat) (now : ℚ) :
    ReaderState × FlushOutcome :=
  let sr := if frameSr = 0 then 48000 else frameSr
  let buffer := st.buffer ++ data
  let window := pyWindow buffer sr
  let lastVoice := if rmsOfPcm16 window > SILENCE_THRESHOLD then now else st.lastVoiceTime
  if READ_LOOP_FLUSH_BYTES ≤ buffer.length ∨
      (SILENCE_SECONDS_TO_END < now - lastVoice ∧ 0 < buffer.length) then
    if buffer.length < MIN_SPEECH_BYTES then (⟨[], lastVoice⟩, .ignored buffer)
    else (⟨[], lastVoice⟩, .dispatched buffer)
  else (⟨buffer, lastVoice⟩, .none)

/-- An inbound audio frame event: payload bytes, frame sample rate, and the
wall-clock time at which the loop body runs. -/
structure FrameEvent where
  data : List Nat
  sr : Nat
  now : ℚ
deriving DecidableEq, Repr

/-- Reader state at loop start: empty buffer,
`last_voice_time = time.time()` (the loop-entry instant `t0`). -/
def initReader (t0 : ℚ) : ReaderState := ⟨[], t0⟩

/-- Run the reader loop over a list of frame events, collecting each
iteration's flush outcome. -/
def runReader (st : ReaderState) : List FrameEvent → ReaderState × List FlushOutcome
  | [] => (st, [])
  | e :: rest =>
    let s := readStep st e.data e.sr e.now
    let r := runReader s.1 rest
    (r.1, s.2 :: r.2)

/-- The bytes a flush outcome hands onwards (or drops). -/
def FlushOutcome.bytes : FlushOutcome → List Nat
  | .none => []
  | .ignored s => s
  | .dispatched s => s

/-- Holds exactly when an `ignored` outcome's snapshot is shorter than
`MIN_SPEECH_BYTES` (trivially true for the other outcomes). -/
def FlushOutcome.ignoredOnlyWhenShort : FlushOutcome → Prop
  | .ignored s => s.length < MIN_SPEECH_BYTES
  | _ => True

/-- A stored listener preference, the per-user dict
`{"language": ..., "voice": ...}` of `TranslatorAgent.user_prefs`. -/
structure UserPref where
  language : String
  voice : String
deriving DecidableEq, Repr

/-- `TranslatorAgent.user_prefs` modelled as an insertion-ordered
association list (Python dicts preserve insertion order). -/
abbrev PrefMap := List (String × UserPref)

/-- Python `dict.get`. -/
def prefLookup (prefs : PrefMap) (userId : String) : Option UserPref :=
  match prefs with
  | [] => Option.none
  | (k, v) :: rest => if k = userId then some v else prefLookup rest userId

/-- Python `dict[key] = value`: overwrite in place if the key exists,
else append (insertion order preserved). -/
def prefStore (prefs : PrefMap) (userId : String) (p : UserPref) : PrefMap :=
  match prefs with
  | [] => [(userId, p)]
  | (k, v) :: rest =>
    if k = userId then (k, p) :: rest else (k, v) :: prefStore rest userId p

/-- `TranslatorAgent.set_user_pref` from `bot_worker.py`: an empty (falsy)
language defaults to `"hi-IN"`, an absent/empty voice defaults to the
language's default voice.  `dv` models the external
`get_default_voice` collaborator. -/
def set_user_pref (dv : String → String) (prefs : PrefMap)
    (userId : String) (language : String) (voice : Option String) : PrefMap :=
  let lang := if language = "" then "hi-IN" else language
  let v := match voice with
    | some w => if w = "" then dv lang else w
    | Option.none => dv lang
  prefStore prefs userId ⟨lang, v⟩

/-- The source language used for a chunk's recognition call in
`TranslatorAgent.handle_speech_chunk`:
`self.user_prefs.get(speaker_id, {"language": "hi-IN", ...})` then
`.get("language", "en-US")` — the stored entry always has a
`"language"` key, so an absent speaker yields `"hi-IN"`. -/
def speaker_source_lang (prefs : PrefMap) (speakerId : String) : String :=
  match prefLookup prefs speakerId with
  | some p => p.language
  | Option.none => "hi-IN"

/-- One queued translation/synthesis task of
`TranslatorAgent.handle_speech_chunk`: the target participant id, the
target language `to_lang`, and the voice passed to
`_translate_and_play_for_target`. -/
structure Invocation where
  target : String
  toLang : String
  voice : String
deriving DecidableEq, Repr

/-- The fan-out loop of `TranslatorAgent.handle_speech_chunk` (lines
237-244): one task per entry of `user_prefs` other than the speaker —
per *listener*, not per distinct language. -/
def fanoutTargets (prefs : PrefMap) (speakerId : String) (dv : String → String) :
    List Invocation :=
  (prefs.filter fun p => p.1 ≠ speakerId).map fun p =>
    ⟨p.1, p.2.language, if p.2.voice = "" then dv p.2.language else p.2.voice⟩

/-- The distinct target languages present among the non-speaker entries of
the preference map (what the spec's per-language dedup would group by). -/
def distinctTargetLanguages (prefs : PrefMap) (speakerId : String) : List String :=
  ((prefs.filter fun p => p.1 ≠ speakerId).map fun p => p.2.language).dedup

/-- `TranslatorAgent.handle_speech_chunk` up to the point where the
fan-out tasks are created: the guards on the chunk and the recognition
result.  `sttResult = none` models `speech_to_text_whisper` raising (the
`except` path), `some ""` models an empty recognition result; both abort
with no tasks.  Returns the list of translation/synthesis tasks queued. -/
def handle_speech_chunk (prefs : PrefMap) (speakerId : String) (dv : String → String)
    (pcmLen : Nat) (sttResult : Option String) : List Invocation :=
  if pcmLen = 0 then []
  else if pcmLen < MIN_SPEECH_BYTES then []
  else match sttResult with
    | Option.none => []
    | some recognized =>
      if recognized = "" then []
      else fanoutTargets prefs speakerId dv

/-- The external-collaborator outcomes one fan-out task can observe:
the translation result (`none` = `translate_text_murf` raised), the
synthesis result (`none` = `generate_speech_from_text` raised), and
whether streaming the audio out (`session.say`) succeeded. -/
structure TargetIO where
  translateResult : Option String
  ttsResult : Option (List Nat)
  sayOk : Bool
deriving DecidableEq, Repr

/-- `TranslatorAgent._translate_and_play_for_target`: translate, bail out
on a raised/empty translation, synthesize, bail out on a raised/empty
blob, then stream.  Every failure is caught inside the task; the task's
only effect is the streamed audio, `none` if anything failed. -/
def translate_and_play_for_target (io : TargetIO) : Option (List Nat) :=
  match io.translateResult with
  | Option.none => Option.none
  | some translated =>
    if translated = "" then Option.none
    else match io.ttsResult with
      | Option.none => Option.none
      | some blob =>
        if blob = [] then Option.none
        else if io.sayOk then some blob else Option.none

/-- The audio delivered per fan-out task of one dispatched chunk, keyed by
the target participant: each task runs `_translate_and_play_for_target`
on its own collaborator outcomes (`io` maps each target id to the
outcomes its task observes). -/
def dispatchOutputs (prefs : PrefMap) (speakerId : String) (dv : String → String)
    (io : String → TargetIO) : List (String × Option (List Nat)) :=
  (fanoutTargets prefs speakerId dv).map fun inv =>
    (inv.target, translate_and_play_for_target (io inv.target))

end BotWorker

namespace MurfApi

/-- `LANGUAGE_CODE_MAP` from `murf_api.py`: human language names to Murf
locales. -/
def LANGUAGE_CODE_MAP : List (String × String) :=
  [("English - US & Canada", "en-US"),
   ("English - UK", "en-UK"),
   ("English - India", "en-IN"),
   ("English - Australia", "en-AU"),
   ("English - Scotland", "en-SCOTT"),
   ("Spanish - Mexico", "es-MX"),
   ("Spanish - Spain", "es-ES"),
   ("French - France", "fr-FR"),
   ("German - Germany", "de-DE"),
   ("Italian - Italy", "it-IT"),
   ("Dutch - Netherlands", "nl-NL"),
   ("Portuguese - Brazil", "pt-BR"),
   ("Chinese - China", "zh-CN"),
   ("Japanese - Japan", "ja-JP"),
   ("Korean - Korea", "ko-KR"),
   ("Hindi - India", "hi-IN"),
   ("Tamil - India", "ta-IN"),
   ("Bengali - India", "bn-IN"),
   ("Croatian - Croatia", "hr-HR"),
   ("Slovak - Slovakia", "sk-SK"),
   ("Polish - Poland", "pl-PL"),
   ("Greek - Greece", "el-GR")]

/-- `dict.get` on `LANGUAGE_CODE_MAP`. -/
def mapLookup (code : String) : Option String :=
  (LANGUAGE_CODE_MAP.find? fun p => p.1 = code).map Prod.snd

/-- `normalize_language` from `murf_api.py`: empty (falsy) code →
`"hi-IN"`; a key of `LANGUAGE_CODE_MAP` → its mapped locale; any other
code containing `"-"` (Python `"-" in code`, modelled on the character
list) → returned unchanged; otherwise `"hi-IN"`. -/
def normalize_language (code : String) : String :=
  if code = "" then "hi-IN"
  else match mapLookup code with
    | some v => v
    | Option.none => if code.toList.contains '-' then code else "hi-IN"

/-- `process_audio_pipeline` from `murf_api.py`, with the three external
calls modelled as optional results (`none` = empty/falsy result).  Returns
the `(recognized, translated, tts_bytes)` triple. -/
def process_audio_pipeline (sttResult : Option String) (translateResult : Option String)
    (ttsResult : List Nat) : Option String × Option String × Option (List Nat) :=
  match sttResult with
  | Option.none => (Option.none, Option.none, Option.none)
  | some recognized =>
    if recognized = "" then (Option.none, Option.none, Option.none)
    else match translateResult with
      | Option.none => (some recognized, Option.none, Option.none)
      | some translated =>
        if translated = "" then (some recognized, Option.none, Option.none)
        else (some recognized, some translated, some ttsResult)

end MurfApi

namespace Playback

/-- The playback state of one `startTranslateStream` call in the room
page (`ROOM_HTML` in `main.py`): the `queue` array, the item currently
playing (the `playing` flag plus the shifted item), and the items already
finished or dropped, in order. -/
structure PlayerState where
  queue : List Nat
  playing : Option Nat
  played : List Nat
deriving DecidableEq, Repr

/-- `playNext()` from `ROOM_HTML`: if nothing is playing and the queue is
non-empty, shift the first item and start playing it; otherwise do
nothing. -/
def playNext (s : PlayerState) : PlayerState :=
  match s.playing, s.queue with
  | Option.none, i :: rest => ⟨rest, some i, s.played⟩
  | _, _ => s

/-- The events that drive one stream's playback state machine:
a websocket `audio` message (`queue.push(...); playNext()`), the
`onended` handler, the `onerror` handler, and a rejected
`play()` promise (`.catch(() => { playing = false; })`, which does not
call `playNext`). -/
inductive PlayEvent
  | enq (i : Nat)
  | ended
  | errored
  | playRejected
deriving DecidableEq, Repr

/-- One event-handler execution of the `ROOM_HTML` playback logic (the
browser event loop runs handlers one at a time). -/
def playerStep (s : PlayerState) : PlayEvent → PlayerState
  | .enq i => playNext { s with queue := s.queue ++ [i] }
  | .ended =>
    match s.playing with
    | some c => playNext ⟨s.queue, Option.none, s.played ++ [c]⟩
    | Option.none => s
  | .errored =>
    match s.playing with
    | some c => playNext ⟨s.queue, Option.none, s.played ++ [c]⟩
    | Option.none => s
  | .playRejected =>
    match s.playing with
    | some c => ⟨s.queue, Option.none, s.played ++ [c]⟩
    | Option.none => s

/-- Run a stream's playback machine from the initial state
(`queue = []`, `playing = false`). -/
def runPlayer (evs : List PlayEvent) : PlayerState :=
  evs.foldl playerStep ⟨[], Option.none, []⟩

/-- The items enqueued by a list of events, in order. -/
def enqueuedItems (evs : List PlayEvent) : List Nat :=
  evs.filterMap fun e => match e with | .enq i => some i | _ => Option.none

/-- The items a state has started playing, in start order: the fully
played ones followed by the currently playing one, if any. -/
def startedItems (s : PlayerState) : List Nat :=
  s.played ++ s.playing.toList

/-- A listener's whole playback setup: `startTranslateStream` is invoked
once per subscribed remote speaker track, so one listener owns an
independent queue/`Audio` element *per speaker*. -/
abbrev ListenerPlayback := List (String × PlayerState)

/-- An event arriving on the stream of one speaker updates only that
speaker's queue. -/
def listenerStep (qs : ListenerPlayback) (speaker : String) (e : PlayEvent) :
    ListenerPlayback :=
  qs.map fun q => if q.1 = speaker then (q.1, playerStep q.2 e) else q

/-- Run a listener's per-speaker playback machines over a trace of
speaker-tagged events. -/
def runListener (init : ListenerPlayback) (evs : List (String × PlayEvent)) :
    ListenerPlayback :=
  evs.foldl (fun qs e => listenerStep qs e.1 e.2) init

end Playback

namespace Governor

/-- The control points of the tasks that make external provider calls in
`bot_worker.py`.  `t*` states belong to one
`_translate_and_play_for_target` task: it acquires the
`_tts_sema` semaphore (`async with self._tts_sema`, line 186), calls
`translate_text_murf` (line 188), possibly returns early on an empty
translation, calls `generate_speech_from_text` (line 194), and releases
the semaphore when the `async with` block exits.  `r*` states belong to
the `speech_to_text_whisper` call of `handle_speech_chunk` (line 227),
which is *not* guarded by the semaphore. -/
inductive TaskState
  | tStart
  | tAcquired
  | tTranslating
  | tTranslated
  | tSynthesizing
  | tSynthesized
  | tDone
  | rStart
  | rRecognizing
  | rDone
deriving DecidableEq, Repr

/-- How many semaphore slots a task in the given state holds. -/
def holding : TaskState → Nat
  | .tAcquired | .tTranslating | .tTranslated | .tSynthesizing | .tSynthesized => 1
  | _ => 0

/-- A snapshot of the translator agent's concurrency state: the free
count of `asyncio.Semaphore(MAX_CONCURRENT_TTS)` and the control point of
every task. -/
structure GovState where
  sema : Nat
  tasks : List TaskState
deriving DecidableEq, Repr

/-- Interleaving semantics of the asyncio tasks: any one task advances at
a time.  `acquire` only fires when a slot is free (a task at the limit
suspends — there is no failing transition); `release` and `releaseEarly`
free the slot (the `async with` exit, on normal completion or on the
early `return`/exception paths after translation). -/
inductive GovStep : GovState → GovState → Prop
  | acquire (s : Nat) (l r : List TaskState) :
      GovStep ⟨s + 1, l ++ .tStart :: r⟩ ⟨s, l ++ .tAcquired :: r⟩
  | beginTranslate (s : Nat) (l r : List TaskState) :
      GovStep ⟨s, l ++ .tAcquired :: r⟩ ⟨s, l ++ .tTranslating :: r⟩
  | endTranslate (s : Nat) (l r : List TaskState) :
      GovStep ⟨s, l ++ .tTranslating :: r⟩ ⟨s, l ++ .tTranslated :: r⟩
  | beginSynthesize (s : Nat) (l r : List TaskState) :
      GovStep ⟨s, l ++ .tTranslated :: r⟩ ⟨s, l ++ .tSynthesizing :: r⟩
  | endSynthesize (s : Nat) (l r : List TaskState) :
      GovStep ⟨s, l ++ .tSynthesizing :: r⟩ ⟨s, l ++ .tSynthesized :: r⟩
  | release (s : Nat) (l r : List TaskState) :
      GovStep ⟨s, l ++ .tSynthesized :: r⟩ ⟨s + 1, l ++ .tDone :: r⟩
  | releaseEarly (s : Nat) (l r : List TaskState) :
      GovStep ⟨s, l ++ .tTranslated :: r⟩ ⟨s + 1, l ++ .tDone :: r⟩
  | beginRecognize (s : Nat) (l r : List TaskState) :
      GovStep ⟨s, l ++ .rStart :: r⟩ ⟨s, l ++ .rRecognizing :: r⟩
  | endRecognize (s : Nat) (l r : List TaskState) :
      GovStep ⟨s, l ++ .rRecognizing :: r⟩ ⟨s, l ++ .rDone :: r⟩

/-- Reachability by any interleaving. -/
def Reachable : GovState → GovState → Prop := Relation.ReflTransGen GovStep

/-- A fresh system: every task is at its entry point and all
`MAX_CONCURRENT_TTS` slots are free. -/
def initial (st : GovState) : Prop :=
  st.sema = BotWorker.MAX_CONCURRENT_TTS ∧
    ∀ t ∈ st.tasks, t = TaskState.tStart ∨ t = TaskState.rStart

/-- Number of tasks currently inside a translation call. -/
def inTranslateCall (st : GovState) : Nat :=
  st.tasks.countP (· = TaskState.tTranslating)

/-- Number of tasks currently inside a synthesis call. -/
def inSynthesisCall (st : GovState) : Nat :=
  st.tasks.countP (· = TaskState.tSynthesizing)

/-- Number of tasks currently inside a recognition call. -/
def inRecognitionCall (st : GovState) : Nat :=
  st.tasks.countP (· = TaskState.rRecognizing)

/-- Total number of in-flight external provider calls. -/
def inFlightCalls (st : GovState) : Nat :=
  inRecognitionCall st + inTranslateCall st + inSynthesisCall st

/-- The semaphore invariant: free slots plus held slots always equal
`MAX_CONCURRENT_TTS`. -/
def SemaInv (st : GovState) : Prop :=
  st.sema + (st.tasks.map holding).sum = BotWorker.MAX_CONCURRENT_TTS

end Governor

namespace SpecSide

open BotWorker

/-- The window demanded by claim C9's words: "the final
`min(buffer_length, 0.2 * sample_rate * 2)` bytes" of the buffer
(`0.2 * sample_rate` truncated to whole samples, as the code's
`int(0.2 * sr)` does). -/
def claimWindow (buffer : List Nat) (sr : Nat) : List Nat :=
  buffer.drop (buffer.length - 2 * (sr / 5))

/-- The estimate demanded by claim C9's words:
"sqrt((1/n) * sum of squared samples)" over a window's int16
little-endian samples, and `0.0` for a window shorter than one 2-byte
sample. -/
noncomputable def claimRms (window : List Nat) : ℝ :=
  if window.length / 2 = 0 then 0
  else Real.sqrt ((1 / ((window.length / 2 : Nat) : ℝ)) * (sumSq (pcmSamples window) : ℝ))

end SpecSide

namespace Fixtures

open BotWorker

/-- A concrete stand-in for the external `get_default_voice`
collaborator, used to instantiate theorems on concrete inputs. -/
def dvFix : String → String := fun _ => "default-voice"

/-- A preference map with a speaker and two listeners who share the same
target language but have different voices. -/
def sharedLangPrefs : PrefMap :=
  [("spk", ⟨"hi-IN", "v0"⟩), ("alice", ⟨"fr-FR", "v1"⟩), ("bob", ⟨"fr-FR", "v2"⟩)]

/-- Collaborator outcomes in which every target's translation and
synthesis succeed. -/
def ioAllOk : String → TargetIO := fun _ => ⟨some "bonjour", some [1, 2, 3], true⟩

/-- Collaborator outcomes in which alice's translation raises and her
synthesis fails, while every other target succeeds. -/
def ioAliceFails : String → TargetIO := fun t =>
  if t = "alice" then ⟨Option.none, Option.none, false⟩ else ⟨some "bonjour", some [1, 2, 3], true⟩

/-- 100 ms of loud speech (one int16 sample of value 1000 at a 20 Hz
sample rate) followed by 500 ms worth of below-threshold samples: 12
buffered bytes = 300 ms of audio, under any minimum-chunk duration. -/
def shortVoiceTrace : List FrameEvent :=
  [⟨[232, 3], 20, 0⟩, ⟨[0, 0, 0, 0, 0, 0, 0, 0], 20, 1 / 10⟩, ⟨[0, 0], 20, 1⟩]

/-- Continuous above-threshold audio: sixteen frames, each one loud int16
sample (value 1000) at a 10 Hz sample rate, i.e. 100 ms of audio per
frame, arriving in real time. -/
def loudTrace : List FrameEvent :=
  (List.range 16).map fun k => ⟨[232, 3], 10, (k : ℚ) / 10⟩

/-- One loud sample then below-threshold samples at a 16 Hz sample rate,
with silence exceeding `SILENCE_SECONDS_TO_END` at the third frame. -/
def shortDropTrace : List FrameEvent :=
  [⟨[232, 3], 16, 0⟩, ⟨[0, 0, 0, 0, 0, 0], 16, 1 / 10⟩, ⟨[0, 0], 16, 7 / 10⟩]

/-- Whether the energy test of one reader-loop iteration sees the window
above the silence threshold. -/
def stepVoiced (st : ReaderState) (e : FrameEvent) : Bool :=
  decide (rmsOfPcm16 (pyWindow (st.buffer ++ e.data) (if e.sr = 0 then 48000 else e.sr)) >
    SILENCE_THRESHOLD)

/-- Whether every iteration of a reader run sees above-threshold energy
(continuous voice, no silence). -/
def allVoiced : ReaderState → List FrameEvent → Bool
  | _, [] => true
  | st, e :: rest => stepVoiced st e && allVoiced (readStep st e.data e.sr e.now).1 rest

/-- A listener subscribed to two remote speakers: two freshly created
per-speaker playback queues. -/
def twoStreams : Playback.ListenerPlayback :=
  [("s1", ⟨[], Option.none, []⟩), ("s2", ⟨[], Option.none, []⟩)]

/-- A fresh governor state with four recognition tasks and all three
semaphore slots free. -/
def govFourRecognizers : Governor.GovState :=
  ⟨3, [.rStart, .rStart, .rStart, .rStart]⟩

/-- The state in which all four recognition calls are in flight at
once. -/
def govFourRecognizing : Governor.GovState :=
  ⟨3, [.rRecognizing, .rRecognizing, .rRecognizing, .rRecognizing]⟩

end Fixtures

open BotWorker MurfApi Playback Governor SpecSide Fixtures

theorem filter_map_dispatch (tp : TargetIO → Option (List Nat))
    (io : String → TargetIO) (y : String) (l : List Invocation) :
    ((l.map fun inv => (inv.target, tp (io inv.target))).filter fun e => e.1 = y) =
      ((l.filter fun inv => inv.target = y).map fun inv => (inv.target, tp (io y))) := by
  induction l with
  | nil => rfl
  | cons inv rest ih =>
    obtain ⟨t, lng, v⟩ := inv
    by_cases h : t = y
    · subst h
      simp [List.filter_cons, ih]
    · simp [List.filter_cons, h, ih]

theorem prefLookup_prefStore_self (prefs : PrefMap) (userId : String) (p : UserPref) :
    prefLookup (prefStore prefs userId p) userId = some p := by
  induction prefs with
  | nil => simp [prefStore, prefLookup]
  | cons kv rest ih =>
    by_cases h : kv.1 = userId
    · simp [prefStore, prefLookup, h]
    · simp [prefStore, prefLookup, h, ih]

/-- **C1** (counterexample): with two listeners who share the target
language `"fr-FR"`, the dispatched chunk queues *two* translation/
synthesis tasks for that language — not at most one per (chunk,
language) pair as the claim states — even though only one distinct
target language is present among the listeners. -/
theorem c1_per_listener_counterexample :
    ((fanoutTargets sharedLangPrefs "spk" dvFix).countP fun inv => inv.toLang = "fr-FR") = 2 ∧
      (distinctTargetLanguages sharedLangPrefs "spk").length = 1 := by
  decide

/-- **C1** (amended): for every flushed chunk, translation and synthesis
are invoked once per *listener* other than the speaker (one task per
`user_prefs` entry), so a language shared by k listeners is translated
and synthesized k times: the fan-out tasks correspond one-to-one, in
order, to the non-speaker preference entries, and the number of tasks for
a language equals the number of non-speaker listeners who chose it. -/
theorem c1_amended_fanout_once_per_listener (prefs : PrefMap) (speakerId : String)
    (dv : String → String) :
    ((fanoutTargets prefs speakerId dv).map Invocation.target =
        (prefs.filter fun p => p.1 ≠ speakerId).map Prod.fst) ∧
      ∀ lang : String,
        ((fanoutTargets prefs speakerId dv).countP fun inv => inv.toLang = lang) =
          ((prefs.filter fun p => p.1 ≠ speakerId).countP fun p => p.2.language = lang) := by
  constructor
  · simp [fanoutTargets, List.map_map, Function.comp]
  · intro lang
    simp only [fanoutTargets, List.countP_map]
    rfl

/-- **C4**: if the recognition call fails (raises) or returns an empty
result, `handle_speech_chunk` aborts the chunk: no translation/synthesis
task is queued and consequently no listener receives an audio item. -/
theorem c4_empty_recognition_aborts (prefs : PrefMap) (speakerId : String)
    (dv : String → String) (pcmLen : Nat) (sttResult : Option String)
    (h : sttResult = Option.none ∨ sttResult = some "") :
    handle_speech_chunk prefs speakerId dv pcmLen sttResult = [] ∧
      ∀ io : String → TargetIO,
        ((handle_speech_chunk prefs speakerId dv pcmLen sttResult).map fun inv =>
          (inv.target, translate_and_play_for_target (io inv.target))) = [] := by
  have habort : handle_speech_chunk prefs speakerId dv pcmLen sttResult = [] := by
    rcases h with h | h <;> subst h <;> unfold handle_speech_chunk <;>
      split_ifs <;> simp
  exact ⟨habort, fun io => by rw [habort]; rfl⟩

/-- **C4** (witness): concrete instance — an empty recognition result on
a sufficiently large chunk queues no tasks. -/
theorem c4_empty_recognition_aborts_witness :
    ((some "" : Option String) = Option.none ∨ (some "" : Option String) = some "") ∧
      handle_speech_chunk sharedLangPrefs "spk" dvFix 7000 (some "") = [] :=
  ⟨Or.inr rfl, (c4_empty_recognition_aborts sharedLangPrefs "spk" dvFix 7000 (some "") (Or.inr rfl)).1⟩

/-- **C5**: a translation/synthesis/streaming failure in one fan-out
task affects only that task's target: the audio delivered to any target
`y` is a function of `y`'s own collaborator outcomes alone (so two
outcome environments that agree on `y` deliver the same items to `y`),
and every entry of the dispatch output for `y` carries exactly the result
of running `y`'s own pipeline. -/
theorem c5_failure_isolated_per_target (prefs : PrefMap) (speakerId : String)
    (dv : String → String) (io io' : String → TargetIO) (y : String)
    (h : io y = io' y) :
    (((dispatchOutputs prefs speakerId dv io).filter fun e => e.1 = y) =
        ((dispatchOutputs prefs speakerId dv io').filter fun e => e.1 = y)) ∧
      (((dispatchOutputs prefs speakerId dv io).filter fun e => e.1 = y) =
        (((fanoutTargets prefs speakerId dv).filter fun inv => inv.target = y).map
          fun inv => (inv.target, translate_and_play_for_target (io y)))) := by
  unfold dispatchOutputs
  refine ⟨?_, filter_map_dispatch _ io y _⟩
  rw [filter_map_dispatch _ io y _, filter_map_dispatch _ io' y _, h]

/-- **C5** (witness): concrete instance — alice's pipeline failing does
not change what bob's language pipeline delivers. -/
theorem c5_failure_isolated_per_target_witness :
    ioAliceFails "bob" = ioAllOk "bob" ∧
      ((dispatchOutputs sharedLangPrefs "spk" dvFix ioAliceFails).filter fun e => e.1 = "bob") =
        ((dispatchOutputs sharedLangPrefs "spk" dvFix ioAllOk).filter fun e => e.1 = "bob") :=
  ⟨by decide,
    (c5_failure_isolated_per_target sharedLangPrefs "spk" dvFix ioAliceFails ioAllOk "bob"
      (by decide)).1⟩

/-- **C10** (counterexample): `normalize_language` does *not* return
every hyphenated code unchanged: `"French - France"` contains a hyphen
but is a key of `LANGUAGE_CODE_MAP`, so it is mapped to `"fr-FR"`. -/
theorem c10_normalize_language_counterexample :
    normalize_language "French - France" = "fr-FR" ∧
      ("French - France".toList.contains '-') = true ∧
      normalize_language "French - France" ≠ "French - France" := by
  decide

/-- **C10** (amended): `"hi-IN"` is the universal default — `set_user_pref`
with an empty language stores `"hi-IN"` with that language's default
voice when no voice is given; a speaker with no stored preference is
processed with source language `"hi-IN"`; `normalize_language` maps the
empty code and any unrecognized hyphen-free code to `"hi-IN"`, maps a
human-readable key of `LANGUAGE_CODE_MAP` to its locale (even though such
keys contain hyphens), and returns any other hyphenated code unchanged. -/
theorem c10_amended_defaults :
    (∀ (dv : String → String) (prefs : PrefMap) (userId : String),
        prefLookup (set_user_pref dv prefs userId "" Option.none) userId =
          some ⟨"hi-IN", dv "hi-IN"⟩) ∧
      (∀ (prefs : PrefMap) (speakerId : String),
        prefLookup prefs speakerId = Option.none →
          speaker_source_lang prefs speakerId = "hi-IN") ∧
      normalize_language "" = "hi-IN" ∧
      (∀ code : String, code ≠ "" → mapLookup code = Option.none →
        code.toList.contains '-' = false → normalize_language code = "hi-IN") ∧
      (∀ code : String, code ≠ "" → mapLookup code = Option.none →
        code.toList.contains '-' = true → normalize_language code = code) ∧
      (∀ (code v : String), code ≠ "" → mapLookup code = some v →
        normalize_language code = v) := by
  refine ⟨?_, ?_, rfl, ?_, ?_, ?_⟩
  · intro dv prefs userId
    unfold set_user_pref
    exact prefLookup_prefStore_self prefs userId _
  · intro prefs speakerId h
    unfold speaker_source_lang
    rw [h]
  · intro code h hmap hdash
    unfold normalize_language
    rw [if_neg h, hmap, hdash]
    rfl
  · intro code h hmap hdash
    unfold normalize_language
    rw [if_neg h, hmap, hdash]
    rfl
  · intro code v h hmap
    unfold normalize_language
    rw [if_neg h, hmap]

/-- **C10** (witness): concrete instances of each hypothesis-bearing part
of the amended claim. -/
theorem c10_amended_defaults_witness :
    prefLookup (set_user_pref dvFix [] "u1" "" Option.none) "u1" =
        some ⟨"hi-IN", dvFix "hi-IN"⟩ ∧
      speaker_source_lang [] "ghost" = "hi-IN" ∧
      normalize_language "klingon" = "hi-IN" ∧
      normalize_language "xx-YY" = "xx-YY" ∧
      normalize_language "Hindi - India" = "hi-IN" :=
  ⟨c10_amended_defaults.1 dvFix [] "u1",
    c10_amended_defaults.2.1 [] "ghost" (by decide),
    c10_amended_defaults.2.2.2.1 "klingon" (by decide) (by decide) (by decide),
    c10_amended_defaults.2.2.2.2.1 "xx-YY" (by decide) (by decide) (by decide),
    c10_amended_defaults.2.2.2.2.2 "Hindi - India" "hi-IN" (by decide) (by decide)⟩

/-- **C2** (counterexample): 300 ms of buffered audio (12 bytes at a
20 Hz rate, below any MIN_CHUNK_MS ≥ 400 ms) followed by > 0.5 s of
silence *does* flush: the third iteration clears the buffer and drops the
snapshot, so the accumulated samples do not remain in the buffer. -/
theorem c2_min_chunk_counterexample :
    ((runReader (initReader 0) shortVoiceTrace).2 =
        [FlushOutcome.none, FlushOutcome.none,
          FlushOutcome.ignored [232, 3, 0, 0, 0, 0, 0, 0, 0, 0, 0, 0]]) ∧
      (runReader (initReader 0) shortVoiceTrace).1.buffer = [] ∧
      (12 : ℚ) / (2 * 1) / 20 * 1000 < 400 :=
  ⟨of_decide_eq_true (by with_unfolding_all rfl),
    of_decide_eq_true (by with_unfolding_all rfl), by norm_num⟩

/-- **C2** (amended): the segmenter has *no* minimum-duration guard on
flushing: whenever the (nonempty) buffer has seen more than
`SILENCE_SECONDS_TO_END` = 0.5 s since the last above-threshold energy,
the iteration flushes — the buffer is cleared, and the snapshot is
dropped (ignored, not processed) exactly when it is shorter than
`MIN_SPEECH_BYTES` = 6400 bytes. -/
theorem c2_amended_silence_flush_no_minimum (st : ReaderState) (data : List Nat)
    (frameSr : Nat) (now : ℚ)
    (hsil : ¬ (rmsOfPcm16 (pyWindow (st.buffer ++ data) (if frameSr = 0 then 48000 else frameSr)) >
      SILENCE_THRESHOLD))
    (hold : SILENCE_SECONDS_TO_END < now - st.lastVoiceTime)
    (hne : st.buffer ++ data ≠ []) :
    (readStep st data frameSr now).1.buffer = [] ∧
      (readStep st data frameSr now).2 ≠ FlushOutcome.none ∧
      (readStep st data frameSr now).2.bytes = st.buffer ++ data ∧
      (readStep st data frameSr now).2 =
        (if (st.buffer ++ data).length < MIN_SPEECH_BYTES then
          FlushOutcome.ignored (st.buffer ++ data)
        else FlushOutcome.dispatched (st.buffer ++ data)) := by
  unfold readStep
  simp only [if_neg hsil]
  have hcond : READ_LOOP_FLUSH_BYTES ≤ (st.buffer ++ data).length ∨
      (SILENCE_SECONDS_TO_END < now - st.lastVoiceTime ∧ 0 < (st.buffer ++ data).length) :=
    Or.inr ⟨hold, List.length_pos.mpr hne⟩
  rw [if_pos hcond]
  split_ifs with hmin
  · exact ⟨rfl, by simp, rfl, rfl⟩
  · exact ⟨rfl, by simp, rfl, rfl⟩

/-- **C2** (witness): a concrete silent iteration on a 4-byte buffer
flushes. -/
theorem c2_amended_silence_flush_no_minimum_witness :
    SILENCE_SECONDS_TO_END < (1 : ℚ) - (0 : ℚ) ∧
      (readStep ⟨[0, 0], 0⟩ [0, 0] 20 1).2 ≠ FlushOutcome.none :=
  ⟨of_decide_eq_true (by with_unfolding_all rfl),
    (c2_amended_silence_flush_no_minimum ⟨[0, 0], 0⟩ [0, 0] 20 1 (by decide)
      (of_decide_eq_true (by with_unfolding_all rfl)) (by decide)).2.1⟩

/-- **C3** (counterexample): feeding continuous above-threshold audio
does *not* flush at 1500 ms of buffered audio: sixteen 100 ms loud frames
(1600 ms buffered, at a 10 Hz rate) produce no flush at all, because the
size trigger is the byte count 48000, not a duration. -/
theorem c3_size_flush_counterexample :
    allVoiced (initReader 0) loudTrace = true ∧
      (runReader (initReader 0) loudTrace).2 = List.replicate 16 FlushOutcome.none ∧
      (runReader (initReader 0) loudTrace).1.buffer.length = 32 ∧
      (1500 : ℚ) < (32 : ℚ) / (2 * 1) / 10 * 1000 :=
  ⟨of_decide_eq_true (by with_unfolding_all rfl),
    of_decide_eq_true (by with_unfolding_all rfl),
    of_decide_eq_true (by with_unfolding_all rfl), by norm_num⟩

/-- **C3** (amended): on an above-threshold (voiced) iteration the flush
fires exactly when the buffered byte count reaches
`READ_LOOP_FLUSH_BYTES` = 48000 bytes (500 ms at the hard-coded 48 kHz
mono reference, not `MAX_CHUNK_MS` = 1500 ms). -/
theorem c3_amended_size_flush_at_48000 (st : ReaderState) (data : List Nat)
    (frameSr : Nat) (now : ℚ)
    (hv : rmsOfPcm16 (pyWindow (st.buffer ++ data) (if frameSr = 0 then 48000 else frameSr)) >
      SILENCE_THRESHOLD) :
    (readStep st data frameSr now).2 ≠ FlushOutcome.none ↔
      READ_LOOP_FLUSH_BYTES ≤ (st.buffer ++ data).length := by
  unfold readStep
  simp only [if_pos hv, sub_self]
  have hnotsil : ¬ (SILENCE_SECONDS_TO_END < (0 : ℚ)) := by norm_num [SILENCE_SECONDS_TO_END]
  by_cases hsz : READ_LOOP_FLUSH_BYTES ≤ (st.buffer ++ data).length
  · rw [if_pos (Or.inl hsz)]
    split_ifs <;> exact iff_of_true (fun h => FlushOutcome.noConfusion h) hsz
  · rw [if_neg (by rintro (h | ⟨h, _⟩) <;> [exact hsz h; exact hnotsil h])]
    exact iff_of_false (fun h => h rfl) hsz

/-- **C3** (witness): a concrete voiced iteration with a 2-byte buffer
does not flush (2 < 48000). -/
theorem c3_amended_size_flush_at_48000_witness :
    (rmsOfPcm16 (pyWindow (([] : List Nat) ++ [232, 3]) (if (10 : Nat) = 0 then 48000 else 10)) >
        SILENCE_THRESHOLD) ∧
      ((readStep ⟨[], 0⟩ [232, 3] 10 0).2 ≠ FlushOutcome.none ↔
        READ_LOOP_FLUSH_BYTES ≤ (([] : List Nat) ++ [232, 3]).length) :=
  ⟨by decide, c3_amended_size_flush_at_48000 ⟨[], 0⟩ [232, 3] 10 0 (by decide)⟩

/-- **C7** (counterexample): the core *does* drop audio because of a
chunk's size: one loud sample followed by silence is flushed as a 10-byte
snapshot, which is ignored (never processed) because it is shorter than
`MIN_SPEECH_BYTES` — no decode or synthesis failure is involved. -/
theorem c7_drop_counterexample :
    ((runReader (initReader 0) shortDropTrace).2 =
        [FlushOutcome.none, FlushOutcome.none,
          FlushOutcome.ignored [232, 3, 0, 0, 0, 0, 0, 0, 0, 0]]) ∧
      ([232, 3, 0, 0, 0, 0, 0, 0, 0, 0] : List Nat) ≠ [] ∧
      ([232, 3, 0, 0, 0, 0, 0, 0, 0, 0] : List Nat).length < MIN_SPEECH_BYTES :=
  ⟨of_decide_eq_true (by with_unfolding_all rfl), by decide, by decide⟩

/-- **C7** (amended): segmentation itself loses no bytes — after every
iteration the flushed snapshot plus the remaining buffer is exactly the
previous buffer plus the new frame — but a flushed snapshot shorter than
`MIN_SPEECH_BYTES` is dropped (ignored) because of its size rather than
processed; only such short snapshots are dropped. -/
theorem c7_amended_conservation_and_size_drop (st : ReaderState) (data : List Nat)
    (frameSr : Nat) (now : ℚ) :
    ((readStep st data frameSr now).2.bytes ++ (readStep st data frameSr now).1.buffer =
        st.buffer ++ data) ∧
      (readStep st data frameSr now).2.ignoredOnlyWhenShort := by
  unfold readStep
  dsimp only
  split <;> split <;> (try split) <;> (try split) <;>
    exact ⟨by simp [FlushOutcome.bytes], by simp_all [FlushOutcome.ignoredOnlyWhenShort]⟩

theorem enqueuedItems_cons (e : PlayEvent) (rest : List PlayEvent) :
    enqueuedItems (e :: rest) = enqueuedItems [e] ++ enqueuedItems rest := by
  cases e <;> simp [enqueuedItems]

theorem playerStep_concat (s : PlayerState) (e : PlayEvent) :
    (playerStep s e).played ++ (playerStep s e).playing.toList ++ (playerStep s e).queue =
      s.played ++ s.playing.toList ++ s.queue ++ enqueuedItems [e] := by
  cases e <;> cases hp : s.playing <;> cases hq : s.queue <;>
    simp [playerStep, playNext, hp, hq, enqueuedItems, Option.toList]

theorem foldl_playerStep_concat (evs : List PlayEvent) (s : PlayerState) :
    (evs.foldl playerStep s).played ++ (evs.foldl playerStep s).playing.toList ++
        (evs.foldl playerStep s).queue =
      s.played ++ s.playing.toList ++ s.queue ++ enqueuedItems evs := by
  induction evs generalizing s with
  | nil => simp [enqueuedItems]
  | cons e rest ih =>
    rw [List.foldl_cons, ih, playerStep_concat, enqueuedItems_cons]
    simp only [List.append_assoc]
    rw [show enqueuedItems ([] : List PlayEvent) = [] from rfl, List.nil_append,
      ← enqueuedItems_cons]

/-- **C6** (counterexample): two playback items enqueued for the *same
listener* but arriving on different speakers' translate streams overlap:
item 10 (enqueued first, from speaker s1) is still playing when item 20
(from speaker s2) starts, because each `startTranslateStream` call owns
its own queue and `Audio` element. -/
theorem c6_per_listener_overlap_counterexample :
    runListener twoStreams [("s1", PlayEvent.enq 10), ("s2", PlayEvent.enq 20)] =
        [("s1", ⟨[], some 10, []⟩), ("s2", ⟨[], some 20, []⟩)] ∧
      ((runListener twoStreams [("s1", PlayEvent.enq 10), ("s2", PlayEvent.enq 20)]).map
          fun q => q.2.playing) = [some 10, some 20] := by
  decide

/-- **C6** (amended): within one `startTranslateStream` queue (one
listener, one speaker stream), playback is strictly FIFO and
non-overlapping: after any event trace, the fully played items, followed
by the at-most-one currently playing item, followed by the still-queued
items, are exactly the enqueued items in enqueue order — so items start
in enqueue order and the next starts only after the previous finished or
was dropped.  (Queues of different speakers for the same listener are
independent and can overlap.) -/
theorem c6_amended_per_stream_fifo (evs : List PlayEvent) :
    ((runPlayer evs).played ++ (runPlayer evs).playing.toList ++ (runPlayer evs).queue =
        enqueuedItems evs) ∧
      startedItems (runPlayer evs) <+: enqueuedItems evs := by
  have h := foldl_playerStep_concat evs ⟨[], Option.none, []⟩
  simp only [Option.toList, List.append_nil, List.nil_append] at h
  refine ⟨h, ?_⟩
  exact ⟨(runPlayer evs).queue, by simpa [startedItems, List.append_assoc] using h⟩

theorem semaInv_step {a b : GovState} (h : GovStep a b) (ha : SemaInv a) : SemaInv b := by
  cases h <;>
    simp_all [SemaInv, holding, List.map_append, List.sum_append] <;> omega

theorem semaInv_reachable {a b : GovState} (h : Reachable a b) (ha : SemaInv a) : SemaInv b := by
  induction h with
  | refl => exact ha
  | tail _ hstep ih => exact semaInv_step hstep ih

theorem busy_le_holding (tasks : List TaskState) :
    tasks.countP (· = TaskState.tTranslating) + tasks.countP (· = TaskState.tSynthesizing) ≤
      (tasks.map holding).sum := by
  induction tasks with
  | nil => simp
  | cons t rest ih =>
    simp only [List.countP_cons, List.map_cons, List.sum_cons]
    cases t <;> simp [holding] <;> omega

/-- **C8** (counterexample): recognition calls are *not* governed by the
semaphore: from a fresh state with four pending recognition tasks, the
state where all four recognition calls are simultaneously in flight is
reachable, so the total number of in-flight external calls exceeds
`MAX_CONCURRENT_TTS` = 3. -/
theorem c8_ungoverned_recognition_counterexample :
    initial govFourRecognizers ∧
      Reachable govFourRecognizers govFourRecognizing ∧
      inFlightCalls govFourRecognizing = 4 ∧
      BotWorker.MAX_CONCURRENT_TTS < inFlightCalls govFourRecognizing := by
  refine ⟨⟨rfl, ?_⟩, ?_, rfl, by decide⟩
  · intro t ht
    simp only [govFourRecognizers, List.mem_cons, List.not_mem_nil, or_false] at ht
    rcases ht with rfl | rfl | rfl | rfl <;> exact Or.inr rfl
  · exact .head (GovStep.beginRecognize 3 [] [.rStart, .rStart, .rStart])
      (.head (GovStep.beginRecognize 3 [.rRecognizing] [.rStart, .rStart])
        (.head (GovStep.beginRecognize 3 [.rRecognizing, .rRecognizing] [.rStart])
          (.head (GovStep.beginRecognize 3 [.rRecognizing, .rRecognizing, .rRecognizing] [])
            .refl)))

/-- **C8** (amended): the `_tts_sema` semaphore bounds only the
translation and synthesis calls: in every state reachable from a fresh
system, the number of in-flight translation plus synthesis calls is at
most `MAX_CONCURRENT_TTS` = 3 (a task at the limit suspends at `acquire`
— no failing transition exists).  Recognition calls are made without
holding a slot and are unbounded. -/
theorem c8_amended_translate_synthesis_bounded (st0 st : GovState)
    (h0 : initial st0) (h : Reachable st0 st) :
    inTranslateCall st + inSynthesisCall st ≤ BotWorker.MAX_CONCURRENT_TTS := by
  have hinv0 : SemaInv st0 := by
    rcases h0 with ⟨hs, hts⟩
    unfold SemaInv
    have hsum : (st0.tasks.map holding).sum = 0 := by
      rw [List.sum_eq_zero]
      intro x hx
      simp only [List.mem_map] at hx
      rcases hx with ⟨t, ht, rfl⟩
      rcases hts t ht with rfl | rfl <;> rfl
    omega
  have hinv := semaInv_reachable h hinv0
  unfold SemaInv at hinv
  calc inTranslateCall st + inSynthesisCall st
      ≤ (st.tasks.map holding).sum := busy_le_holding st.tasks
    _ ≤ BotWorker.MAX_CONCURRENT_TTS := by omega

/-- **C8** (witness): the bound applied to a fresh two-task system via
the empty run. -/
theorem c8_amended_translate_synthesis_bounded_witness :
    initial ⟨3, [TaskState.tStart, TaskState.rStart]⟩ ∧
      inTranslateCall ⟨3, [TaskState.tStart, TaskState.rStart]⟩ +
          inSynthesisCall ⟨3, [TaskState.tStart, TaskState.rStart]⟩ ≤
        BotWorker.MAX_CONCURRENT_TTS := by
  have h0 : initial ⟨3, [TaskState.tStart, TaskState.rStart]⟩ := by
    refine ⟨rfl, ?_⟩
    intro t ht
    simp only [List.mem_cons, List.not_mem_nil, or_false] at ht
    rcases ht with rfl | rfl
    · exact Or.inl rfl
    · exact Or.inr rfl
  exact ⟨h0, c8_amended_translate_synthesis_bounded _ _ h0 Relation.ReflTransGen.refl⟩

/-- **C9** (counterexample): the claimed window formula is wrong for
sample rates below 5 Hz: at `sr = 1` the code's slice `buffer[-0:]` is
the *whole* buffer, so a buffer holding the single sample 1000 yields an
RMS of 1000, while the claim's `min(buffer_length, 0.2*sr*2) = 0`-byte
window demands 0.0. -/
theorem c9_window_counterexample :
    pyWindow [232, 3] 1 = [232, 3] ∧
      claimWindow [232, 3] 1 = [] ∧
      claimRms (claimWindow [232, 3] 1) = 0 ∧
      rmsOfPcm16 (pyWindow [232, 3] 1) = 1000 ∧
      (1000 : ℝ) ≠ 0 := by
  refine ⟨by decide, by decide, ?_, ?_, by norm_num⟩
  · have h : claimWindow [232, 3] 1 = [] := by decide
    rw [h]
    unfold claimRms
    simp
  · have h : pyWindow [232, 3] 1 = [232, 3] := by decide
    rw [h]
    unfold rmsOfPcm16
    rw [if_neg (by decide)]
    have hs : sumSq (pcmSamples [232, 3]) = 1000000 := by decide
    have h2 : ((([232, 3] : List Nat).length / 2 : Nat) : ℝ) = 1 := by norm_num
    rw [hs, h2, div_one]
    rw [show ((1000000 : Int) : ℝ) = (1000 : ℝ) ^ 2 by norm_num]
    exact Real.sqrt_sq (by norm_num)

/-- **C9** (amended): after every ingested frame the energy estimate is
the RMS `sqrt((1/n) * sum of squared int16 samples)` of the code's
window; that window is the claimed "final `min(buffer_length,
0.2*sample_rate*2)` bytes" whenever `sample_rate ≥ 5` (so the window
byte count is nonzero), while for `sample_rate < 5` Python's `[-0:]`
slice makes it the whole buffer; a window shorter than one 2-byte sample
gives 0.0 with no division by zero. -/
theorem c9_amended_rms_window (buffer : List Nat) (sr : Nat) :
    (rmsOfPcm16 (pyWindow buffer sr) = claimRms (pyWindow buffer sr)) ∧
      (5 ≤ sr → pyWindow buffer sr = claimWindow buffer sr) ∧
      ((pyWindow buffer sr).length < 2 → rmsOfPcm16 (pyWindow buffer sr) = 0) := by
  refine ⟨?_, ?_, ?_⟩
  · unfold rmsOfPcm16 claimRms
    split_ifs with h
    · rfl
    · rw [one_div, inv_mul_eq_div]
  · intro h5
    unfold pyWindow claimWindow
    rw [if_neg (by omega)]
  · intro hlen
    unfold rmsOfPcm16
    rw [if_pos (by omega)]

/-- **C9** (witness): at `sr = 5` the code window and the claimed window
agree on a concrete buffer. -/
theorem c9_amended_rms_window_witness :
    (5 : Nat) ≤ 5 ∧ pyWindow [232, 3] 5 = claimWindow [232, 3] 5 :=
  ⟨by decide, (c9_amended_rms_window [232, 3] 5).2.1 (by decide)⟩
